import Mathlib

/-!
Verification of the Christmas-Decorator backend against its specification.

The definitions below are a shallow embedding of the Python sources:
  backend/app/routers/decorator.py   (the decoration pipeline)
  backend/app/services/agents.py     (the agent registry / service)
File bytes are modelled as natural numbers, Python strings as Lean strings,
Python dicts as insertion-ordered association lists, and raised exceptions
as Except values.  External agent calls are abstracted by an oracle mapping
an agent role and its task input to either a result string or a raised
error's text.
-/

namespace ChristmasDecorator

/-- Roles of the four agents configured in services/agents.py
(DEFAULT_AGENTS keys). -/
inductive AgentRole where
  | validateImage
  | validateText
  | decoratorDescriptor
  | decorator
deriving DecidableEq

/-- Content blocks of the datapizza client protocol as used by the router:
TextBlock(content=...) and MediaBlock(media=Media(media_type, source_type,
source)). -/
inductive Block where
  | textBlock (content : String)
  | mediaBlock (media_type : String) (source_type : String) (source : String)
deriving DecidableEq

/-- fastapi.HTTPException(status_code=..., detail=...). -/
structure HTTPException where
  status_code : Nat
  detail : String
deriving DecidableEq

/-- app.schemas.schemas.DecorateResponse(image_base64=..., explanation=...). -/
structure DecorateResponse where
  image_base64 : String
  explanation : String
deriving DecidableEq

/-- Python truthiness of an optional string: None and the empty string are
falsy (used by `if not image.filename` and `if prompt` in the router). -/
def pyTruthy : Option String → Bool
  | none => false
  | some s => !s.isEmpty

/-- The standard base64 alphabet, modelling Python's base64.b64encode
followed by .decode("utf-8"). -/
def b64Alphabet : List Char :=
  [ 'A', 'B', 'C', 'D', 'E', 'F', 'G', 'H', 'I', 'J', 'K', 'L', 'M',
    'N', 'O', 'P', 'Q', 'R', 'S', 'T', 'U', 'V', 'W', 'X', 'Y', 'Z',
    'a', 'b', 'c', 'd', 'e', 'f', 'g', 'h', 'i', 'j', 'k', 'l', 'm',
    'n', 'o', 'p', 'q', 'r', 's', 't', 'u', 'v', 'w', 'x', 'y', 'z',
    '0', '1', '2', '3', '4', '5', '6', '7', '8', '9', '+', '/' ]

/-- Character of the base64 alphabet at a given index. -/
def b64Char (n : Nat) : Char := b64Alphabet.getD n 'A'

/-- Standard base64 of a byte sequence (Python base64.b64encode). -/
def base64Encode : List Nat → String
  | [] => ""
  | [a] =>
      String.mk [b64Char (a / 4), b64Char (a % 4 * 16), '=', '=']
  | [a, b] =>
      String.mk [b64Char (a / 4), b64Char (a % 4 * 16 + b / 16),
                 b64Char (b % 16 * 4), '=']
  | a :: b :: c :: rest =>
      String.mk [b64Char (a / 4), b64Char (a % 4 * 16 + b / 16),
                 b64Char (b % 16 * 4 + c / 64), b64Char (c % 64)]
        ++ base64Encode rest

/-- An agent call either returns a string result or raises an exception
carrying an error text (routers/decorator.py consumes agent results as
strings inside f-strings). -/
abbrev Oracle := AgentRole → List Block → Except String String

/-- Lines 76-80 of routers/decorator.py: the fixed image-validation
question. -/
def validation_prompt : String :=
  "Is this image showing an indoor environment like a room, office, or living space that could be decorated for Christmas? Answer with YES or NO and a brief reason."

/-- Lines 99-103 of routers/decorator.py: the prompt-validation question,
parameterized by the user prompt. -/
def text_validation_prompt (p : String) : String :=
  "The user wants to: \x27" ++ p ++ "\x27. Is this request relevant and achievable for decorating this image? Answer with YES or NO and a brief reason."

/-- Lines 121-132 of routers/decorator.py: the planning instruction, either
restating the user prompt or asking for an autonomous choice. -/
def planning_message (prompt : Option String) : String :=
  if pyTruthy prompt then
    "Based on the user\x27s request: \x27" ++ prompt.getD "" ++ "\x27, describe the best Christmas decorations to add to this room. Be specific about placement and style. Keep it concise."
  else
    "Analyze this room and describe the best Christmas decorations to add. Consider the room\x27s style, lighting, and available spaces. Be specific about placement and style. Keep it concise."

/-- Lines 144-147 of routers/decorator.py: the generation prompt built from
the decoration plan (dead in the source: the decorator-agent call that
would consume it, lines 150-155, is commented out). -/
def generation_prompt (decoration_plan : String) : String :=
  "Add Christmas decorations to this image: " ++ decoration_plan ++ ". Make it festive, photorealistic, and high quality."

/-- Task input of the image-validation call (lines 82-87). -/
def imageGateInput (path : String) : List Block :=
  [Block.textBlock validation_prompt,
   Block.mediaBlock "image" "path" path]

/-- Task input of the prompt-validation call (lines 105-110). -/
def textGateInput (p : String) (path : String) : List Block :=
  [Block.textBlock (text_validation_prompt p),
   Block.mediaBlock "image" "path" path]

/-- Task input of the decoration-planning call (lines 134-139). -/
def planGateInput (prompt : Option String) (path : String) : List Block :=
  [Block.textBlock (planning_message prompt),
   Block.mediaBlock "image" "path" path]

/-- The value bound to generation_result at line 156 is the empty string;
had the commented-out agent call (lines 150-155) run, it could have been a
client response carrying content blocks.  The hasattr probe at line 163
distinguishes the two shapes. -/
inductive GenResult where
  | strResult (s : String)
  | clientResponse (content : List Block)
deriving DecidableEq

/-- Lines 158-185 of routers/decorator.py: result_image_path is first set
to the processed-directory path (line 159); if the generation result has a
content attribute, its blocks are iterated and each MediaBlock is only
logged, the branch body being pass (lines 163-171); finally line 185
unconditionally re-assigns result_image_path = file_path.  Hence the
function returns the original upload path for every input. -/
def resultImagePath (generation_result : GenResult) (file_path : String)
    (processed_image_path : String) : String :=
  match generation_result with
  | GenResult.strResult _ =>
      let _result_image_path := processed_image_path
      file_path
  | GenResult.clientResponse _blocks =>
      let _result_image_path := processed_image_path
      file_path

/-- Lines 193-198 of routers/decorator.py: the explanation assembled from
the decoration plan and the image-validation verdict, prefixed with the
user's request when a prompt was given.  The multi-byte characters are the
exact bytes of the source file. -/
def buildExplanation (decoration_plan : String)
    (image_validation_result : String) (prompt : Option String) : String :=
  let explanation :=
    "üéÑ **Decoration Plan:**\n" ++ decoration_plan ++
      "\n\n‚úÖ **Image Validation:** " ++ image_validation_result
  if pyTruthy prompt then
    "üìù **Your Request:** " ++ prompt.getD "" ++ "\n\n" ++ explanation
  else
    explanation

/-- Outcome of one request to the /api/decorate endpoint: the HTTP-level
result, whether the temporary upload was written, whether it still exists
when the request terminates, and the ordered trace of agent invocations. -/
structure PipelineOutcome where
  result : Except HTTPException DecorateResponse
  fileWritten : Bool
  tempFileExists : Bool
  calls : List (AgentRole × List Block)

/-- Head of the detail text of the generic 500 error (lines 208-213). -/
def failureMsgHead : String := "Failed to decorate image: "

/-- Steps 5-7 of the pipeline (lines 120-203), entered after the gates:
plan via the decorator_descriptor agent, build the response from the bytes
stored at result_image_path = file_path, then the finally block (lines
215-217) unlinks the temporary file on every exit. -/
def planAndRespond (content : List Nat) (path : String)
    (prompt : Option String) (image_validation_result : String)
    (callsSoFar : List (AgentRole × List Block)) (oracle : Oracle) :
    PipelineOutcome :=
  match oracle AgentRole.decoratorDescriptor (planGateInput prompt path) with
  | Except.error e =>
      { result := Except.error ⟨500, failureMsgHead ++ e⟩,
        fileWritten := true, tempFileExists := false,
        calls := callsSoFar
          ++ [(AgentRole.decoratorDescriptor, planGateInput prompt path)] }
  | Except.ok decoration_plan =>
      { result := Except.ok
          ⟨(if resultImagePath (GenResult.strResult "") path
                ("processed/decorated_" ++ path) = path
             then base64Encode content else ""),
           buildExplanation decoration_plan image_validation_result prompt⟩,
        fileWritten := true, tempFileExists := false,
        calls := callsSoFar
          ++ [(AgentRole.decoratorDescriptor, planGateInput prompt path)] }

/-- The /api/decorate endpoint, routers/decorator.py lines 29-217.
Arguments: the upload's filename, its bytes, the unique temporary path the
bytes are written to, the optional user prompt, and the agent oracle.
The validation-gate checks at lines 91-95 and 114-118 are commented out in
the source, so no verdict aborts the pipeline; the except clauses map any
non-HTTP exception to a 500 carrying the original error text, and the
finally clause removes the temporary file on every path on which it was
written. -/
def decorate_image (filename : Option String) (content : List Nat)
    (path : String) (prompt : Option String) (oracle : Oracle) :
    PipelineOutcome :=
  if pyTruthy filename = false then
    { result := Except.error ⟨400, "No filename provided"⟩,
      fileWritten := false, tempFileExists := false, calls := [] }
  else
    match oracle AgentRole.validateImage (imageGateInput path) with
    | Except.error e =>
        { result := Except.error ⟨500, failureMsgHead ++ e⟩,
          fileWritten := true, tempFileExists := false,
          calls := [(AgentRole.validateImage, imageGateInput path)] }
    | Except.ok image_validation_result =>
        if pyTruthy prompt then
          match oracle AgentRole.validateText
              (textGateInput (prompt.getD "") path) with
          | Except.error e =>
              { result := Except.error ⟨500, failureMsgHead ++ e⟩,
                fileWritten := true, tempFileExists := false,
                calls := [(AgentRole.validateImage, imageGateInput path),
                          (AgentRole.validateText,
                           textGateInput (prompt.getD "") path)] }
          | Except.ok _text_validation_result =>
              planAndRespond content path prompt image_validation_result
                [(AgentRole.validateImage, imageGateInput path),
                 (AgentRole.validateText,
                  textGateInput (prompt.getD "") path)] oracle
        else
          planAndRespond content path prompt image_validation_result
            [(AgentRole.validateImage, imageGateInput path)] oracle

/-! Embedding of backend/app/services/agents.py. -/

/-- ClientConfig dataclass (agents.py lines 15-21). -/
structure ClientConfig where
  model : String
  base_url : String := "http://localhost:11434/v1"
  api_key : String := ""
  system_prompt : String := "You are a helpful assistant."
deriving DecidableEq

/-- AgentConfig dataclass (agents.py lines 24-28). -/
structure AgentConfig where
  name : String
  system_prompt : String
deriving DecidableEq

/-- OpenAILikeClient as constructed at agents.py lines 135-140; the library
class is modelled by its constructor arguments. -/
structure OpenAILikeClient where
  api_key : String
  model : String
  system_prompt : String
  base_url : String
deriving DecidableEq

/-- datapizza Agent as constructed at agents.py lines 165-169. -/
structure Agent where
  name : String
  client : OpenAILikeClient
  system_prompt : String
deriving DecidableEq

/-- Python dict lookup d[k]: Except models the KeyError raised on a missing
key.  Dicts are insertion-ordered association lists with unique keys. -/
def dictGet (d : List (String × α)) (k : String) : Except String α :=
  match d.lookup k with
  | some v => Except.ok v
  | none => Except.error ("KeyError: " ++ k)

/-- Python dict assignment d[k] = v: overwrite in place when the key
exists, else append. -/
def dictSet (d : List (String × α)) (k : String) (v : α) :
    List (String × α) :=
  if d.any (fun kv => kv.1 == k) then
    d.map (fun kv => if kv.1 == k then (k, v) else kv)
  else
    d ++ [(k, v)]

/-- DEFAULT_CLIENTS (agents.py lines 32-45). -/
def DEFAULT_CLIENTS : List (String × ClientConfig) :=
  [ ("text", { model := "unsloth/gemma-3-270m-it-GGUF",
               base_url := "http://localhost:8081/v1" }),
    ("vlm", { model := "unsloth/gemma-3-4b-it-GGUF",
              base_url := "http://localhost:8082/v1" }),
    ("diffusion", { model := "unsloth/Qwen-Image-Edit-2511-GGUF",
                    base_url := "http://localhost:8083/v1" }) ]

/-- DEFAULT_AGENTS (agents.py lines 47-77). -/
def DEFAULT_AGENTS : List (String × AgentConfig) :=
  [ ("validate_image",
     { name := "validate_image_agent",
       system_prompt := "You are a helpful assistant which validates if an image is showing an indoor environment like a room, office, or living space." }),
    ("validate_text",
     { name := "validate_text_agent",
       system_prompt := "You are a helpful assistant which validates if the user request is relevant and possible for the image properly." }),
    ("decorator_descriptor",
     { name := "image_decorator_descriptor_agent",
       system_prompt := "You are a helpful assistant who decides which are the best Christmas decorations to add to the given image." }),
    ("decorator",
     { name := "image_decorator_agent",
       system_prompt := "You are a helpful assistant who adds the best Christmas decorations to the given image." }) ]

/-- State of an AgentService instance (agents.py lines 95-111). -/
structure AgentService where
  client_configs : List (String × ClientConfig)
  agent_configs : List (String × AgentConfig)
  clients : List (String × OpenAILikeClient)
  agents : List (String × Agent)
  initializedFlag : Bool
deriving DecidableEq

/-- Python `x or default` for an optional dict argument: None and the empty
dict are falsy (agents.py lines 107-108). -/
def orDefault (x : Option (List (String × α))) (d : List (String × α)) :
    List (String × α) :=
  match x with
  | none => d
  | some [] => d
  | some l => l

/-- AgentService.__init__ (agents.py lines 95-111): store the configs (or
the defaults), start with empty client and agent dicts and the initialized
flag false.  The Python attribute _initialized is the field
initializedFlag. -/
def AgentService.new (client_configs : Option (List (String × ClientConfig)))
    (agent_configs : Option (List (String × AgentConfig))) : AgentService :=
  { client_configs := orDefault client_configs DEFAULT_CLIENTS,
    agent_configs := orDefault agent_configs DEFAULT_AGENTS,
    clients := [], agents := [], initializedFlag := false }

/-- AgentService() with default arguments. -/
def AgentService.mkDefault : AgentService := AgentService.new none none

/-- AgentService._create_clients (agents.py lines 132-140): one
OpenAILikeClient per configured client, keyed like the configs. -/
def AgentService.create_clients (s : AgentService) : AgentService :=
  { s with clients :=
      (s.client_configs.foldl
        (fun d kc =>
          dictSet d kc.1
            { api_key := kc.2.api_key, model := kc.2.model,
              system_prompt := kc.2.system_prompt,
              base_url := kc.2.base_url })
        s.clients) }

/-- AgentService._create_agent (agents.py lines 163-169). -/
def AgentService.create_agent (config : AgentConfig)
    (client : OpenAILikeClient) : Agent :=
  { name := config.name, client := client,
    system_prompt := config.system_prompt }

/-- AgentService._create_agents (agents.py lines 142-159): the four agents,
validators and descriptor on the vlm client, decorator on the diffusion
client; a missing dict key raises KeyError. -/
def AgentService.create_agents (s : AgentService) :
    Except String AgentService := do
  let cVI ← dictGet s.agent_configs "validate_image"
  let vlm ← dictGet s.clients "vlm"
  let a1 := dictSet s.agents "validate_image"
    (AgentService.create_agent cVI vlm)
  let cVT ← dictGet s.agent_configs "validate_text"
  let a2 := dictSet a1 "validate_text" (AgentService.create_agent cVT vlm)
  let cDD ← dictGet s.agent_configs "decorator_descriptor"
  let a3 := dictSet a2 "decorator_descriptor"
    (AgentService.create_agent cDD vlm)
  let cD ← dictGet s.agent_configs "decorator"
  let diffusion ← dictGet s.clients "diffusion"
  let a4 := dictSet a3 "decorator" (AgentService.create_agent cD diffusion)
  Except.ok { s with agents := a4 }

/-- AgentService.initialize (agents.py lines 118-130): a no-op when already
initialized, otherwise create clients then agents and set the flag.  The
source name is initialize. -/
def AgentService.initializeSvc (s : AgentService) :
    Except String AgentService :=
  if s.initializedFlag then Except.ok s
  else
    match AgentService.create_agents (AgentService.create_clients s) with
    | Except.error e => Except.error e
    | Except.ok s2 => Except.ok { s2 with initializedFlag := true }

/-- Message of the RuntimeError raised by _ensure_initialized (agents.py
lines 181-186). -/
def initErrorMsg : String :=
  "AgentService has not been initialized. Call initialize() first."

/-- AgentService.get_agent (agents.py lines 176-179): _ensure_initialized
raises when the flag is unset, then the agents dict is indexed. -/
def AgentService.get_agent (s : AgentService) (key : String) :
    Except String Agent :=
  if s.initializedFlag = false then Except.error initErrorMsg
  else dictGet s.agents key

/-- AgentService.get_client (agents.py lines 171-174). -/
def AgentService.get_client (s : AgentService) (key : String) :
    Except String OpenAILikeClient :=
  if s.initializedFlag = false then Except.error initErrorMsg
  else dictGet s.clients key

/-- get_agent_service (agents.py lines 227-237): the module-level singleton
_default_service, modelled by an Option passed in and returned; on None a
fresh default service is built and initialized, otherwise the stored
instance is returned unchanged. -/
def get_agent_service (g : Option AgentService) :
    Except String (AgentService × Option AgentService) :=
  match g with
  | some s => Except.ok (s, some s)
  | none =>
      match AgentService.initializeSvc AgentService.mkDefault with
      | Except.error e => Except.error e
      | Except.ok s => Except.ok (s, some s)

/-- The default service after its first initialization. -/
def initializedDefault : AgentService :=
  match AgentService.initializeSvc AgentService.mkDefault with
  | Except.ok s => s
  | Except.error _ => AgentService.mkDefault

/-- Whitespace recognizer used for trimming. -/
def isSpaceChar (c : Char) : Bool :=
  c == ' ' || c == '\t' || c == '\n' || c == '\r'

/-- Trim leading and trailing whitespace from a character list. -/
def trimChars (l : List Char) : List Char :=
  ((l.dropWhile isSpaceChar).reverse.dropWhile isSpaceChar).reverse

/-- Whether the first list is an initial segment of the second. -/
def leadsWith : List Char → List Char → Bool
  | [], _ => true
  | _ :: _, [] => false
  | a :: as, b :: bs => a == b && leadsWith as bs

/-- Whether the needle occurs as a contiguous run in the haystack. -/
def hasSub (needle : List Char) : List Char → Bool
  | [] => needle.isEmpty
  | c :: rest => leadsWith needle (c :: rest) || hasSub needle rest

/-- Modelled from the spec: the validation-gate decision rule of spec
section 4.3, which has no counterpart in the code (the enforcement at
routers/decorator.py lines 91-95 and 114-118 is commented out).  Normalize
the verdict by trimming whitespace and upper-casing; the gate FAILs when
the normalized text starts with "NO" or when the substring "NO," or "NO."
occurs within the first 10 characters. -/
def specGateFail (verdict : String) : Bool :=
  ((leadsWith ['N', 'O'] ((trimChars verdict.data).map Char.toUpper)
    || hasSub ['N', 'O', ',']
        (((trimChars verdict.data).map Char.toUpper).take 10))
    || hasSub ['N', 'O', '.']
        (((trimChars verdict.data).map Char.toUpper).take 10))

/-- Oracle whose image-validation verdict is a clear negative and whose
other calls return a fixed plan. -/
def oracleNO : Oracle := fun r _ =>
  match r with
  | AgentRole.validateImage => Except.ok "NO, this is outdoors."
  | _ => Except.ok "PLAN"

/-- Oracle whose image-validation verdict is positive and whose other
calls return a fixed plan. -/
def oracleYes : Oracle := fun r _ =>
  match r with
  | AgentRole.validateImage => Except.ok "YES"
  | _ => Except.ok "PLAN"

/-- Oracle every call of which raises a quota-exhaustion error. -/
def oracleQuota : Oracle := fun _ _ =>
  Except.error "RESOURCE_EXHAUSTED: quota exceeded"

/-! Characterization of the pipeline, one lemma per exit path. -/

/-- With a falsy filename the request is rejected with a 400 before any
file is written or agent called. -/
theorem run_no_filename (filename : Option String) (content : List Nat)
    (path : String) (prompt : Option String) (oracle : Oracle)
    (hf : pyTruthy filename = false) :
    decorate_image filename content path prompt oracle =
      { result := Except.error ⟨400, "No filename provided"⟩,
        fileWritten := false, tempFileExists := false, calls := [] } := by
  unfold decorate_image
  rw [hf]
  simp

/-- A raising image-validation call yields the generic 500 with the
original error text; the temporary file is gone. -/
theorem run_imgcall_error (filename : Option String) (content : List Nat)
    (path : String) (prompt : Option String) (oracle : Oracle) (e : String)
    (hf : pyTruthy filename = true)
    (hvi : oracle AgentRole.validateImage (imageGateInput path)
      = Except.error e) :
    decorate_image filename content path prompt oracle =
      { result := Except.error ⟨500, failureMsgHead ++ e⟩,
        fileWritten := true, tempFileExists := false,
        calls := [(AgentRole.validateImage, imageGateInput path)] } := by
  unfold decorate_image
  rw [hf, hvi]
  simp

/-- A raising prompt-validation call yields the generic 500 with the
original error text; the temporary file is gone. -/
theorem run_textcall_error (filename : Option String) (content : List Nat)
    (path : String) (prompt : Option String) (oracle : Oracle)
    (iv e : String)
    (hf : pyTruthy filename = true) (hp : pyTruthy prompt = true)
    (hvi : oracle AgentRole.validateImage (imageGateInput path)
      = Except.ok iv)
    (htv : oracle AgentRole.validateText (textGateInput (prompt.getD "") path)
      = Except.error e) :
    decorate_image filename content path prompt oracle =
      { result := Except.error ⟨500, failureMsgHead ++ e⟩,
        fileWritten := true, tempFileExists := false,
        calls := [(AgentRole.validateImage, imageGateInput path),
                  (AgentRole.validateText,
                   textGateInput (prompt.getD "") path)] } := by
  unfold decorate_image
  rw [hf, hvi, hp, htv]
  simp

/-- A raising planning call yields the generic 500 with the original error
text. -/
theorem run_plancall_error (filename : Option String) (content : List Nat)
    (path : String) (prompt : Option String) (oracle : Oracle)
    (iv e : String)
    (hf : pyTruthy filename = true)
    (hvi : oracle AgentRole.validateImage (imageGateInput path)
      = Except.ok iv)
    (htv : pyTruthy prompt = true →
      (oracle AgentRole.validateText
        (textGateInput (prompt.getD "") path)).isOk = true)
    (hdp : oracle AgentRole.decoratorDescriptor (planGateInput prompt path)
      = Except.error e) :
    (decorate_image filename content path prompt oracle).result
      = Except.error ⟨500, failureMsgHead ++ e⟩ := by
  unfold decorate_image
  rw [hf, hvi]
  by_cases hp : pyTruthy prompt
  · rcases htvv : oracle AgentRole.validateText
        (textGateInput (prompt.getD "") path) with e2 | tv
    · rw [htvv] at htv
      exact absurd (htv hp) (by simp [Except.isOk, Except.toBool])
    · rw [hp]
      simp [planAndRespond, hdp]
  · simp only [hp]
    simp [planAndRespond, hdp]

/-- A run in which all agent calls return characterizes the success
response: base64 of the original bytes plus the assembled explanation. -/
theorem run_success (filename : Option String) (content : List Nat)
    (path : String) (prompt : Option String) (oracle : Oracle)
    (iv dp : String)
    (hf : pyTruthy filename = true)
    (hvi : oracle AgentRole.validateImage (imageGateInput path)
      = Except.ok iv)
    (htv : pyTruthy prompt = true →
      (oracle AgentRole.validateText
        (textGateInput (prompt.getD "") path)).isOk = true)
    (hdp : oracle AgentRole.decoratorDescriptor (planGateInput prompt path)
      = Except.ok dp) :
    (decorate_image filename content path prompt oracle).result
      = Except.ok ⟨base64Encode content, buildExplanation dp iv prompt⟩ := by
  unfold decorate_image
  rw [hf, hvi]
  by_cases hp : pyTruthy prompt
  · rcases htvv : oracle AgentRole.validateText
        (textGateInput (prompt.getD "") path) with e2 | tv
    · rw [htvv] at htv
      exact absurd (htv hp) (by simp [Except.isOk, Except.toBool])
    · rw [hp]
      simp [planAndRespond, hdp, resultImagePath]
  · simp only [hp]
    simp [planAndRespond, hdp, resultImagePath]

/-- Trace of agent invocations on any run that reaches the planning step,
whatever the planning call returns. -/
theorem run_calls (filename : Option String) (content : List Nat)
    (path : String) (prompt : Option String) (oracle : Oracle)
    (iv : String)
    (hf : pyTruthy filename = true)
    (hvi : oracle AgentRole.validateImage (imageGateInput path)
      = Except.ok iv)
    (htv : pyTruthy prompt = true →
      (oracle AgentRole.validateText
        (textGateInput (prompt.getD "") path)).isOk = true) :
    (decorate_image filename content path prompt oracle).calls
      = (if pyTruthy prompt then
          [(AgentRole.validateImage, imageGateInput path),
           (AgentRole.validateText, textGateInput (prompt.getD "") path),
           (AgentRole.decoratorDescriptor, planGateInput prompt path)]
         else
          [(AgentRole.validateImage, imageGateInput path),
           (AgentRole.decoratorDescriptor, planGateInput prompt path)]) := by
  unfold decorate_image
  rw [hf, hvi]
  by_cases hp : pyTruthy prompt
  · rcases htvv : oracle AgentRole.validateText
        (textGateInput (prompt.getD "") path) with e2 | tv
    · rw [htvv] at htv
      exact absurd (htv hp) (by simp [Except.isOk, Except.toBool])
    · rw [hp]
      rcases hdp : oracle AgentRole.decoratorDescriptor
          (planGateInput prompt path) with e | dp <;>
        simp [planAndRespond, hdp]
  · simp only [hp]
    rcases hdp : oracle AgentRole.decoratorDescriptor
        (planGateInput prompt path) with e | dp <;>
      simp [planAndRespond, hdp, hp]

/-- The temporary file is absent at the end of every run, whichever exit
path was taken. -/
theorem run_temp_always_deleted (filename : Option String)
    (content : List Nat) (path : String) (prompt : Option String)
    (oracle : Oracle) :
    (decorate_image filename content path prompt oracle).tempFileExists
      = false := by
  unfold decorate_image planAndRespond
  repeat' split
  all_goals rfl

/-! Claims. -/

/-- C1: the claim (and the router docstring) says a verdict whose trimmed,
upper-cased text starts with "NO" (or carries "NO,"/"NO." in its first 10
characters) must FAIL the gate and abort the request with a client error
carrying the verdict; on the concrete run below the image-validation
verdict "NO, this is outdoors." is exactly such a FAIL verdict under the
spec rule (first conjunct), yet the pipeline returns a success response
built from the original image (second conjunct): the gate enforcement at
routers/decorator.py lines 91-95 and 114-118 is commented out and no
verdict ever aborts anything. -/
theorem c1_gate_not_enforced :
    specGateFail "NO, this is outdoors." = true
    ∧ (decorate_image (some "room.jpg") [1, 2, 3] "uploads/room.jpg" none
        oracleNO).result
      = Except.ok ⟨base64Encode [1, 2, 3],
          buildExplanation "PLAN" "NO, this is outdoors." none⟩ :=
  ⟨by decide, rfl⟩

/-- C2: the claim (and the router docstring's step 4, "Image Generation:
Applies the decorations to the image") says the decoration-generation
agent — the decorator role, bound to the diffusion client — is invoked
with the planning instruction plus the stored-image reference; but on
every run, whatever the inputs and agent outcomes, no call with the
decorator role ever appears in the pipeline's call trace (first conjunct):
its invocation at routers/decorator.py lines 150-155 is commented out and
generation_result is hardwired to the empty string.  On the concrete
passing request of the second conjunct, the prompt-restating instruction
goes only to the decorator_descriptor (describer) agent. -/
theorem c2_generation_agent_not_invoked :
    (∀ (filename : Option String) (content : List Nat) (path : String)
       (prompt : Option String) (oracle : Oracle),
      AgentRole.decorator ∉
        ((decorate_image filename content path prompt oracle).calls.map
          Prod.fst))
    ∧ (AgentRole.decoratorDescriptor,
        [Block.textBlock (planning_message (some "add a tree")),
         Block.mediaBlock "image" "path" "uploads/room.jpg"])
        ∈ (decorate_image (some "room.jpg") [1] "uploads/room.jpg"
            (some "add a tree") oracleYes).calls := by
  constructor
  · intro filename content path prompt oracle
    unfold decorate_image planAndRespond
    repeat' split
    all_goals simp
  · exact List.mem_cons_of_mem _ (List.mem_cons_of_mem _
      (List.mem_cons_self _ _))

/-- C3: the code never extracts an image from a generation response: for
the spec's example content [Text "done", MediaReference image base64
"Zm9v"] — and for every other block list — the result-image path the
response is built from stays the original upload path (the MediaBlock
branch of the scan loop is pass and line 185 unconditionally reassigns
result_image_path = file_path), so extraction never yields
("Zm9v", "done"). -/
theorem c3_extraction_ignores_response :
    resultImagePath (GenResult.clientResponse
        [Block.textBlock "done", Block.mediaBlock "image" "base64" "Zm9v"])
      "uploads/room.jpg" "processed/decorated_room.jpg" = "uploads/room.jpg"
    ∧ ∀ (blocks : List Block) (fp pp : String),
        resultImagePath (GenResult.clientResponse blocks) fp pp = fp :=
  ⟨rfl, fun _ _ _ => rfl⟩

/-- C4 counterexample: a successful run whose (empty) generation result
carries no image block and no text; the claim says the explanation must
then be a fixed "unable to generate" fallback, but the code returns the
explanation assembled from the decoration plan and the validation verdict,
which does not contain "unable to generate" and is not empty. -/
theorem c4_explanation_counterexample :
    (decorate_image (some "room.jpg") [1, 2, 3] "uploads/room.jpg" none
        oracleYes).result
      = Except.ok ⟨base64Encode [1, 2, 3],
          buildExplanation "PLAN" "YES" none⟩
    ∧ hasSub ("unable to generate".data)
        ((buildExplanation "PLAN" "YES" none).data) = false
    ∧ buildExplanation "PLAN" "YES" none ≠ "" :=
  ⟨rfl, by decide, by decide⟩

/-- C4 amended: the generation result is the hardwired empty string, which
carries no base64 image MediaReference, and on every successful run the
response image falls back to the base64 encoding of the originally
uploaded bytes, while the explanation is assembled from the decoration
plan and the image-validation verdict (prefixed with the user's request
when a prompt was given) — never from the generation response's text and
never from an "unable to generate" fallback. -/
theorem c4_fallback_amended (filename : Option String) (content : List Nat)
    (path : String) (prompt : Option String) (oracle : Oracle)
    (iv dp : String)
    (hf : pyTruthy filename = true)
    (hvi : oracle AgentRole.validateImage (imageGateInput path)
      = Except.ok iv)
    (htv : pyTruthy prompt = true →
      (oracle AgentRole.validateText
        (textGateInput (prompt.getD "") path)).isOk = true)
    (hdp : oracle AgentRole.decoratorDescriptor (planGateInput prompt path)
      = Except.ok dp) :
    (decorate_image filename content path prompt oracle).result
      = Except.ok ⟨base64Encode content, buildExplanation dp iv prompt⟩ :=
  run_success filename content path prompt oracle iv dp hf hvi htv hdp

/-- C4 amended witness: concrete prompted success run. -/
theorem c4_fallback_amended_witness :
    (decorate_image (some "room.jpg") [1, 2, 3] "uploads/room.jpg"
        (some "add a tree") oracleYes).result
      = Except.ok ⟨base64Encode [1, 2, 3],
          buildExplanation "PLAN" "YES" (some "add a tree")⟩ :=
  c4_fallback_amended (some "room.jpg") [1, 2, 3] "uploads/room.jpg"
    (some "add a tree") oracleYes "YES" "PLAN" rfl rfl (fun _ => rfl) rfl

/-- C5 counterexample: an agent call raising an error whose text contains
RESOURCE_EXHAUSTED is reported with the generic 500 server failure and
the generic detail text, not with a distinct 429-equivalent rate-limit
error as the claim requires. -/
theorem c5_rate_limit_counterexample :
    (decorate_image (some "room.jpg") [1] "uploads/room.jpg" none
        oracleQuota).result
      = Except.error ⟨500,
          failureMsgHead ++ "RESOURCE_EXHAUSTED: quota exceeded"⟩ := rfl

/-- C5 amended: the router has no rate-limit classification: every error
result carries status 400 or 500 (never 429), and an exception raised by
any of the three agent-call sites — image validation, prompt validation,
or planning — whatever its text, is reported as the generic 500 carrying
the original error text. -/
theorem c5_error_mapping_amended (filename : Option String)
    (content : List Nat) (path : String) (prompt : Option String)
    (oracle : Oracle) :
    (∀ st d, (decorate_image filename content path prompt oracle).result
        = Except.error ⟨st, d⟩ → st = 400 ∨ st = 500)
    ∧ (∀ e, pyTruthy filename = true →
        oracle AgentRole.validateImage (imageGateInput path)
          = Except.error e →
        (decorate_image filename content path prompt oracle).result
          = Except.error ⟨500, failureMsgHead ++ e⟩)
    ∧ (∀ iv e, pyTruthy filename = true → pyTruthy prompt = true →
        oracle AgentRole.validateImage (imageGateInput path)
          = Except.ok iv →
        oracle AgentRole.validateText (textGateInput (prompt.getD "") path)
          = Except.error e →
        (decorate_image filename content path prompt oracle).result
          = Except.error ⟨500, failureMsgHead ++ e⟩)
    ∧ (∀ iv e, pyTruthy filename = true →
        oracle AgentRole.validateImage (imageGateInput path)
          = Except.ok iv →
        (pyTruthy prompt = true →
          (oracle AgentRole.validateText
            (textGateInput (prompt.getD "") path)).isOk = true) →
        oracle AgentRole.decoratorDescriptor (planGateInput prompt path)
          = Except.error e →
        (decorate_image filename content path prompt oracle).result
          = Except.error ⟨500, failureMsgHead ++ e⟩) := by
  refine ⟨?_, ?_, ?_, ?_⟩
  · intro st d h
    rcases Bool.eq_false_or_eq_true (pyTruthy filename) with hf | hf
    case inr =>
      rw [run_no_filename filename content path prompt oracle hf] at h
      simp at h
      exact Or.inl h.1.symm
    case inl =>
      rcases hvi : oracle AgentRole.validateImage (imageGateInput path)
          with e | iv
      · rw [run_imgcall_error filename content path prompt oracle e
          hf hvi] at h
        simp at h
        exact Or.inr h.1.symm
      · have step : ∀ htv : pyTruthy prompt = true →
            (oracle AgentRole.validateText
              (textGateInput (prompt.getD "") path)).isOk = true,
            st = 400 ∨ st = 500 := by
          intro htv
          rcases hdp : oracle AgentRole.decoratorDescriptor
              (planGateInput prompt path) with e | dp
          · rw [run_plancall_error filename content path prompt oracle iv e
              hf hvi htv hdp] at h
            simp at h
            exact Or.inr h.1.symm
          · rw [run_success filename content path prompt oracle iv dp
              hf hvi htv hdp] at h
            exact absurd h (by simp)
        rcases Bool.eq_false_or_eq_true (pyTruthy prompt) with hp | hp
        case inr =>
          exact step (fun hpp => absurd hpp (by simp [hp]))
        case inl =>
          rcases htvv : oracle AgentRole.validateText
              (textGateInput (prompt.getD "") path) with e2 | tv
          · rw [run_textcall_error filename content path prompt oracle
              iv e2 hf hp hvi htvv] at h
            simp at h
            exact Or.inr h.1.symm
          · exact step (fun _ => by
              simp [htvv, Except.isOk, Except.toBool])
  · intro e hf hvi
    rw [run_imgcall_error filename content path prompt oracle e hf hvi]
  · intro iv e hf hp hvi htv
    rw [run_textcall_error filename content path prompt oracle iv e
      hf hp hvi htv]
  · intro iv e hf hvi htv hdp
    exact run_plancall_error filename content path prompt oracle iv e
      hf hvi htv hdp

/-- C5 amended witness: concrete run whose image-validation call raises a
quota-exhaustion error; the result is the generic 500. -/
theorem c5_error_mapping_amended_witness :
    (decorate_image (some "a.jpg") [0] "uploads/a.jpg" none
        oracleQuota).result
      = Except.error ⟨500,
          failureMsgHead ++ "RESOURCE_EXHAUSTED: quota exceeded"⟩ :=
  (c5_error_mapping_amended (some "a.jpg") [0] "uploads/a.jpg" none
      oracleQuota).2.1 "RESOURCE_EXHAUSTED: quota exceeded" rfl rfl

/-- C6: whenever the temporary upload was written, it no longer exists
when the request terminates, on every exit path — success, validation
outcome, agent exception — because the finally block at lines 215-217
unlinks it unconditionally. -/
theorem c6_temp_file_cleanup (filename : Option String)
    (content : List Nat) (path : String) (prompt : Option String)
    (oracle : Oracle)
    (_h : (decorate_image filename content path prompt oracle).fileWritten
      = true) :
    (decorate_image filename content path prompt oracle).tempFileExists
      = false :=
  run_temp_always_deleted filename content path prompt oracle

/-- C6 witness: concrete successful run that wrote the temporary file. -/
theorem c6_temp_file_cleanup_witness :
    (decorate_image (some "a.jpg") [0] "uploads/a.jpg" none
        oracleYes).tempFileExists = false :=
  c6_temp_file_cleanup (some "a.jpg") [0] "uploads/a.jpg" none
    oracleYes rfl

/-- C7: with a falsy prompt the prompt-validation agent is never invoked;
with a truthy prompt, once the image-validation call returns, the call
trace is image validation, then prompt validation, then (unless the
prompt-validation call raised) decoration planning — so the prompt gate
always runs before the planning/generation call. -/
theorem c7_prompt_gate (filename : Option String) (content : List Nat)
    (path : String) (prompt : Option String) (oracle : Oracle) :
    (pyTruthy prompt = false →
      AgentRole.validateText ∉
        ((decorate_image filename content path prompt oracle).calls.map
          Prod.fst))
    ∧ (∀ iv, pyTruthy filename = true → pyTruthy prompt = true →
        oracle AgentRole.validateImage (imageGateInput path)
          = Except.ok iv →
        ((decorate_image filename content path prompt oracle).calls.map
            Prod.fst = [AgentRole.validateImage, AgentRole.validateText]
         ∨ (decorate_image filename content path prompt oracle).calls.map
            Prod.fst = [AgentRole.validateImage, AgentRole.validateText,
              AgentRole.decoratorDescriptor])) := by
  constructor
  · intro hp
    rcases Bool.eq_false_or_eq_true (pyTruthy filename) with hf | hf
    case inr =>
      rw [run_no_filename filename content path prompt oracle hf]
      simp
    case inl =>
      rcases hvi : oracle AgentRole.validateImage (imageGateInput path)
          with e | iv
      · rw [run_imgcall_error filename content path prompt oracle e hf hvi]
        simp
      · rw [run_calls filename content path prompt oracle iv hf hvi
          (fun hpp => absurd hpp (by simp [hp]))]
        simp [hp]
  · intro iv hf hp hvi
    rcases htvv : oracle AgentRole.validateText
        (textGateInput (prompt.getD "") path) with e2 | tv
    · left
      rw [run_textcall_error filename content path prompt oracle iv e2
        hf hp hvi htvv]
      rfl
    · right
      rw [run_calls filename content path prompt oracle iv hf hvi
        (fun _ => by simp [htvv, Except.isOk, Except.toBool])]
      simp [hp]

/-- C7 witness: an unprompted run never calls the prompt validator; a
prompted run calls it between image validation and planning. -/
theorem c7_prompt_gate_witness :
    AgentRole.validateText ∉
      ((decorate_image (some "a.jpg") [0] "uploads/a.jpg" none
        oracleYes).calls.map Prod.fst)
    ∧ ((decorate_image (some "a.jpg") [0] "uploads/a.jpg"
          (some "add a tree") oracleYes).calls.map Prod.fst
        = [AgentRole.validateImage, AgentRole.validateText]
       ∨ (decorate_image (some "a.jpg") [0] "uploads/a.jpg"
          (some "add a tree") oracleYes).calls.map Prod.fst
        = [AgentRole.validateImage, AgentRole.validateText,
           AgentRole.decoratorDescriptor]) :=
  ⟨(c7_prompt_gate (some "a.jpg") [0] "uploads/a.jpg" none oracleYes).1 rfl,
   (c7_prompt_gate (some "a.jpg") [0] "uploads/a.jpg" (some "add a tree")
      oracleYes).2 "YES" rfl rfl rfl⟩

/-- C8: accessing the registry through the singleton twice returns the
very same service, so an agent looked up under a key is the same
configuration on every call; and requesting an agent or client from a
not-yet-initialized service yields the RuntimeError message rather than a
silent default. -/
theorem c8_registry_access :
    (∀ (g : Option AgentService) (s : AgentService)
       (g2 : Option AgentService) (k : String),
      get_agent_service g = Except.ok (s, g2) →
      ∀ (s2 : AgentService) (g3 : Option AgentService),
        get_agent_service g2 = Except.ok (s2, g3) →
        AgentService.get_agent s2 k = AgentService.get_agent s k ∧ s2 = s)
    ∧ (∀ (s : AgentService) (k : String), s.initializedFlag = false →
        AgentService.get_agent s k = Except.error initErrorMsg
        ∧ AgentService.get_client s k = Except.error initErrorMsg) := by
  constructor
  · intro g s g2 k h s2 g3 h2
    cases g with
    | some s0 =>
        simp [get_agent_service] at h
        obtain ⟨hA, hB⟩ := h
        subst hA
        subst hB
        simp [get_agent_service] at h2
        obtain ⟨hC, _hD⟩ := h2
        subst hC
        exact ⟨rfl, rfl⟩
    | none =>
        rcases hinit : AgentService.initializeSvc AgentService.mkDefault
            with e | s1
        · rw [get_agent_service, hinit] at h
          simp at h
        · rw [get_agent_service, hinit] at h
          simp at h
          obtain ⟨hA, hB⟩ := h
          subst hA
          subst hB
          simp [get_agent_service] at h2
          obtain ⟨hC, _hD⟩ := h2
          subst hC
          exact ⟨rfl, rfl⟩
  · intro s k h
    constructor
    · simp [AgentService.get_agent, h]
    · simp [AgentService.get_client, h]

/-- C8 witness: the fresh default service rejects agent and client lookups
with the RuntimeError message; the initialized singleton returns equal
agents across repeated accesses. -/
theorem c8_registry_access_witness :
    AgentService.get_agent AgentService.mkDefault "validate_image"
        = Except.error initErrorMsg
    ∧ AgentService.get_client AgentService.mkDefault "validate_image"
        = Except.error initErrorMsg
    ∧ AgentService.get_agent initializedDefault "validate_image"
        = AgentService.get_agent initializedDefault "validate_image" :=
  ⟨(c8_registry_access.2 AgentService.mkDefault "validate_image" rfl).1,
   (c8_registry_access.2 AgentService.mkDefault "validate_image" rfl).2,
   (c8_registry_access.1 none initializedDefault (some initializedDefault)
      "validate_image" rfl initializedDefault (some initializedDefault)
      rfl).1⟩

/-- C9: every successful response carries, as image_base64, exactly the
base64 encoding of the originally uploaded bytes: the success path never
returns a distinct decorated image. -/
theorem c9_returns_original_image (filename : Option String)
    (content : List Nat) (path : String) (prompt : Option String)
    (oracle : Oracle) (r : DecorateResponse)
    (h : (decorate_image filename content path prompt oracle).result
      = Except.ok r) :
    r.image_base64 = base64Encode content := by
  rcases Bool.eq_false_or_eq_true (pyTruthy filename) with hf | hf
  case inr =>
    rw [run_no_filename filename content path prompt oracle hf] at h
    exact absurd h (by simp)
  case inl =>
    rcases hvi : oracle AgentRole.validateImage (imageGateInput path)
        with e | iv
    · rw [run_imgcall_error filename content path prompt oracle e hf hvi]
        at h
      exact absurd h (by simp)
    · have step : ∀ htv : pyTruthy prompt = true →
          (oracle AgentRole.validateText
            (textGateInput (prompt.getD "") path)).isOk = true,
          r.image_base64 = base64Encode content := by
        intro htv
        rcases hdp : oracle AgentRole.decoratorDescriptor
            (planGateInput prompt path) with e | dp
        · rw [run_plancall_error filename content path prompt oracle iv e
            hf hvi htv hdp] at h
          exact absurd h (by simp)
        · rw [run_success filename content path prompt oracle iv dp
            hf hvi htv hdp] at h
          injection h with h2
          rw [← h2]
      rcases Bool.eq_false_or_eq_true (pyTruthy prompt) with hp | hp
      case inr =>
        exact step (fun hpp => absurd hpp (by simp [hp]))
      case inl =>
        rcases htvv : oracle AgentRole.validateText
            (textGateInput (prompt.getD "") path) with e2 | tv
        · rw [run_textcall_error filename content path prompt oracle iv e2
            hf hp hvi htvv] at h
          exact absurd h (by simp)
        · exact step (fun _ => by
            simp [htvv, Except.isOk, Except.toBool])

/-- C9 witness: concrete successful run, whose response image is the
base64 of the uploaded bytes. -/
theorem c9_returns_original_image_witness :
    (DecorateResponse.mk (base64Encode [1, 2, 3])
        (buildExplanation "PLAN" "YES" none)).image_base64
      = base64Encode [1, 2, 3] :=
  c9_returns_original_image (some "room.jpg") [1, 2, 3] "uploads/room.jpg"
    none oracleYes
    (DecorateResponse.mk (base64Encode [1, 2, 3])
      (buildExplanation "PLAN" "YES" none)) rfl

/-- C10: initialize is idempotent — re-initializing an initialized service
returns it unchanged, clients, agents and flag included — and the
get_agent_service singleton hands back the same already-initialized
instance on every subsequent call. -/
theorem c10_init_idempotent_singleton :
    (∀ (s t : AgentService), AgentService.initializeSvc s = Except.ok t →
      AgentService.initializeSvc t = Except.ok t)
    ∧ (∀ (g : Option AgentService) (s : AgentService)
        (g2 : Option AgentService),
      get_agent_service g = Except.ok (s, g2) →
      get_agent_service g2 = Except.ok (s, g2)) := by
  constructor
  · intro s t h
    unfold AgentService.initializeSvc at h ⊢
    rcases Bool.eq_false_or_eq_true s.initializedFlag with hflag | hflag
    case inl =>
      rw [hflag] at h
      simp at h
      subst h
      simp [hflag]
    case inr =>
      rw [hflag] at h
      simp at h
      rcases hca : AgentService.create_agents
          (AgentService.create_clients s) with e | s2
      · rw [hca] at h
        simp at h
      · rw [hca] at h
        simp at h
        rw [← h]
        simp
  · intro g s g2 h
    cases g with
    | some s0 =>
        simp [get_agent_service] at h
        obtain ⟨h1, h2⟩ := h
        subst h1
        subst h2
        simp [get_agent_service]
    | none =>
        rcases hinit : AgentService.initializeSvc AgentService.mkDefault
            with e | s1
        · rw [get_agent_service, hinit] at h
          simp at h
        · rw [get_agent_service, hinit] at h
          simp at h
          obtain ⟨h1, h2⟩ := h
          subst h1
          subst h2
          simp [get_agent_service]

/-- C10 witness: initializing the already-initialized default service is a
no-op, and the singleton returns the same instance again. -/
theorem c10_init_idempotent_singleton_witness :
    AgentService.initializeSvc initializedDefault
        = Except.ok initializedDefault
    ∧ get_agent_service (some initializedDefault)
        = Except.ok (initializedDefault, some initializedDefault) :=
  ⟨c10_init_idempotent_singleton.1 AgentService.mkDefault
      initializedDefault rfl,
   c10_init_idempotent_singleton.2 none initializedDefault
      (some initializedDefault) rfl⟩

end ChristmasDecorator
